import Mathlib

/-!
Verification of the conjugation-data schema module (`src/conjugation_data.ts`).

The module declares:
  * an interface `ConjugationItem` describing one dictionary word together
    with its principal conjugated forms (four required `{kanji, hiragana}`
    slots and one nullable Te-Form slot);
  * three closed string-literal unions `WritingSystem`, `VerbForm`, `WordType`;
  * an exported constant `conjugationData : ConjugationItem[]`, an empty
    array literal.

Each declaration below is a direct translation of the corresponding
declaration in the source file; field names with spaces
(`"Present Affirmative"`, …) become camelCase.
-/

/-- A `{kanji, hiragana}` pair of written representations, the anonymous
record shape used for `dictionary` and for every conjugation slot
(source lines 4-7, 13-32). -/
structure FormPair where
  kanji : String
  hiragana : String
deriving DecidableEq, Repr

/-- `WordType` (source lines 37-46): closed union of nine string-literal
variants. -/
inductive WordType where
  | verbRu
  | verbU
  | verbIrregular
  | noun
  | adjectiveI
  | adjectiveNa
  | adverb
  | particle
  | expression
deriving DecidableEq, Repr

/-- `WritingSystem` (source line 35): closed union `"kanji" | "hiragana"`. -/
inductive WritingSystem where
  | kanji
  | hiragana
deriving DecidableEq, Repr

/-- `VerbForm` (source line 36): closed union `"dictionary" | "masu"`. -/
inductive VerbForm where
  | dictionary
  | masu
deriving DecidableEq, Repr

/-- The nested `Word` record of `ConjugationItem` (source lines 2-11). -/
structure WordInfo where
  dictionary : FormPair
  definition : String
  type : WordType
deriving DecidableEq, Repr

/-- `ConjugationItem` (source lines 1-33).  The four required conjugation
slots are plain `FormPair` fields; the nullable `"Te Form"` slot is an
`Option FormPair`, with `none` translating TypeScript `null`. -/
structure ConjugationItem where
  Word : WordInfo
  presentAffirmative : FormPair
  presentNegative : FormPair
  pastAffirmative : FormPair
  pastNegative : FormPair
  teForm : Option FormPair
deriving DecidableEq, Repr

/-- `conjugationData` (source lines 49-50): the exported collection, an
empty array literal. -/
def conjugationData : List ConjugationItem := []

/-- All nine `WordType` variants, in source order. -/
def allWordTypes : List WordType :=
  [WordType.verbRu, WordType.verbU, WordType.verbIrregular, WordType.noun,
   WordType.adjectiveI, WordType.adjectiveNa, WordType.adverb,
   WordType.particle, WordType.expression]

/-- Well-formedness of an entry in the sense of the data discipline:
the dictionary hiragana spelling is non-empty and the Te-Form slot is a
present pair. -/
def wellFormed (e : ConjugationItem) : Bool :=
  !(e.Word.dictionary.hiragana == "") && e.teForm.isSome

/-- A read of the exported collection at any point of the program's
lifetime.  The module defines no operation that writes to the collection,
so a read is the constant `conjugationData`. -/
def readConjugationData (_t : Nat) : List ConjugationItem :=
  conjugationData

/-- A concrete well-formed entry: "食べる"/"たべる", ru-verb, "to eat",
with its four required forms and a Te-Form pair. -/
def taberuEntry : ConjugationItem where
  Word :=
    { dictionary := { kanji := "食べる", hiragana := "たべる" }
      definition := "to eat"
      type := WordType.verbRu }
  presentAffirmative := { kanji := "食べる", hiragana := "たべる" }
  presentNegative := { kanji := "食べない", hiragana := "たべない" }
  pastAffirmative := { kanji := "食べた", hiragana := "たべた" }
  pastNegative := { kanji := "食べなかった", hiragana := "たべなかった" }
  teForm := some { kanji := "食べて", hiragana := "たべて" }

/-- A concrete entry with an empty dictionary kanji spelling: the
hiragana-only irregular verb "する" ("to do"). -/
def suruEntry : ConjugationItem where
  Word :=
    { dictionary := { kanji := "", hiragana := "する" }
      definition := "to do"
      type := WordType.verbIrregular }
  presentAffirmative := { kanji := "", hiragana := "する" }
  presentNegative := { kanji := "", hiragana := "しない" }
  pastAffirmative := { kanji := "", hiragana := "した" }
  pastNegative := { kanji := "", hiragana := "しなかった" }
  teForm := some { kanji := "", hiragana := "して" }

/-- A structurally valid `ConjugationItem` value all of whose strings are
empty: the type itself does not rule it out. -/
def blankEntry : ConjugationItem where
  Word :=
    { dictionary := { kanji := "", hiragana := "" }
      definition := ""
      type := WordType.noun }
  presentAffirmative := { kanji := "", hiragana := "" }
  presentNegative := { kanji := "", hiragana := "" }
  pastAffirmative := { kanji := "", hiragana := "" }
  pastNegative := { kanji := "", hiragana := "" }
  teForm := none

/-- C1: the exported collection `conjugationData` is empty: its length is
exactly 0, and reading it yields zero entries. -/
theorem conjugationData_is_empty :
    conjugationData.length = 0 ∧ conjugationData = [] :=
  ⟨rfl, rfl⟩

/-- C2: for every entry, the Te-Form slot is either entirely absent
(`none`, a first-class value distinct from an empty `{kanji, hiragana}`
pair) or a complete pair carrying both fields; no partially filled pair is
representable.  The other five record fields of `ConjugationItem` are
non-optional, so Te-Form is the only slot that can be absent. -/
theorem teForm_absent_or_complete :
    (∀ e : ConjugationItem,
       e.teForm = none ∨
       ∃ p : FormPair, e.teForm = some p ∧
         p = { kanji := p.kanji, hiragana := p.hiragana }) ∧
    (none : Option FormPair) ≠ some { kanji := "", hiragana := "" } := by
  constructor
  · intro e
    cases h : e.teForm with
    | none => exact Or.inl rfl
    | some p => exact Or.inr ⟨p, rfl, rfl⟩
  · intro h
    exact Option.noConfusion h

/-- C3: every entry of the collection has a non-empty dictionary hiragana
spelling (holds vacuously: the collection is empty). -/
theorem all_hiragana_nonempty :
    conjugationData.all (fun e => !(e.Word.dictionary.hiragana == "")) = true :=
  rfl

/-- C4: for every entry, each of the four required conjugation slots is
present and structurally complete: it decomposes into a kanji string and a
hiragana string; and every entry of the collection passes this check. -/
theorem required_slots_complete :
    (∀ e : ConjugationItem,
       (∃ k h : String, e.presentAffirmative = { kanji := k, hiragana := h }) ∧
       (∃ k h : String, e.presentNegative = { kanji := k, hiragana := h }) ∧
       (∃ k h : String, e.pastAffirmative = { kanji := k, hiragana := h }) ∧
       (∃ k h : String, e.pastNegative = { kanji := k, hiragana := h })) ∧
    conjugationData.all (fun _ => true) = true := by
  refine ⟨fun e => ⟨⟨_, _, rfl⟩, ⟨_, _, rfl⟩, ⟨_, _, rfl⟩, ⟨_, _, rfl⟩⟩, rfl⟩

/-- C5: `WordType` is a closed enumeration with exactly nine variants —
every `WordType` value is one of the nine listed, the nine are pairwise
distinct — and every entry of the collection carries one of them. -/
theorem wordType_closed_nine :
    allWordTypes.length = 9 ∧
    (∀ t : WordType, t ∈ allWordTypes) ∧
    allWordTypes.Nodup ∧
    conjugationData.all (fun e => allWordTypes.contains e.Word.type) = true := by
  refine ⟨rfl, ?_, ?_, rfl⟩
  · intro t
    cases t <;> simp [allWordTypes]
  · simp [allWordTypes]

/-- C6: `WritingSystem` and `VerbForm` are closed two-variant enumerations:
every `WritingSystem` value is `kanji` or `hiragana`, every `VerbForm`
value is `dictionary` or `masu`, and the variants are distinct. -/
theorem writingSystem_verbForm_closed :
    (∀ w : WritingSystem, w = WritingSystem.kanji ∨ w = WritingSystem.hiragana) ∧
    (∀ v : VerbForm, v = VerbForm.dictionary ∨ v = VerbForm.masu) ∧
    WritingSystem.kanji ≠ WritingSystem.hiragana ∧
    VerbForm.dictionary ≠ VerbForm.masu := by
  refine ⟨?_, ?_, by simp, by simp⟩
  · intro w
    cases w
    · exact Or.inl rfl
    · exact Or.inr rfl
  · intro v
    cases v
    · exact Or.inl rfl
    · exact Or.inr rfl

/-- C7: round-trip — appending one well-formed entry `e` to the current
(empty) collection and re-reading yields exactly one entry, equal to `e`
field-for-field. -/
theorem append_roundtrip (e : ConjugationItem) (_h : wellFormed e = true) :
    (conjugationData ++ [e]).length = 1 ∧
    (conjugationData ++ [e]) = [e] := by
  exact ⟨rfl, rfl⟩

/-- C7 witness: the concrete entry 食べる/たべる is well-formed, and
appending it to the empty collection yields exactly that one entry. -/
theorem append_roundtrip_witness :
    wellFormed taberuEntry = true ∧
    ((conjugationData ++ [taberuEntry]).length = 1 ∧
     (conjugationData ++ [taberuEntry]) = [taberuEntry]) :=
  ⟨rfl, append_roundtrip taberuEntry rfl⟩

/-- C8: the module defines no mutation path for the collection: a read of
`conjugationData` at any point of the program's lifetime yields the same
static table, the empty list fixed by the source. -/
theorem conjugationData_readonly :
    ∀ s t : Nat,
      readConjugationData s = readConjugationData t ∧
      readConjugationData s = [] :=
  fun _ _ => ⟨rfl, rfl⟩

/-- C9: the schema admits entries whose dictionary kanji spelling is the
empty string: there is a well-formed `ConjugationItem` with
`Word.dictionary.kanji = ""`. -/
theorem empty_kanji_representable :
    ∃ e : ConjugationItem,
      e.Word.dictionary.kanji = "" ∧ wellFormed e = true :=
  ⟨suruEntry, rfl, rfl⟩

/-- C10: the `ConjugationItem` type itself does not enforce the non-empty
hiragana invariant: there is a value of the type whose
`Word.dictionary.hiragana` is the empty string. -/
theorem type_admits_empty_hiragana :
    ∃ e : ConjugationItem, e.Word.dictionary.hiragana = "" :=
  ⟨blankEntry, rfl⟩
